import Mathlib

/-!
Shallow embedding of the SMB cash-flow forecasting backend
(src/backend_flask.py): dataset normalisation, the Prophet-based forecast
step, risk classification, and the /predict route.

Modelling conventions:
* Monetary amounts are rationals (Python float arithmetic idealised as
  exact rational arithmetic; in particular the literals 0.1 and 0.25 are
  the exact rationals 1/10 and 1/4).
* A pandas timestamp is abstracted to `MDate`: the index of its calendar
  month together with whether the date is the last day of that month.
  The only date operations the backend performs — ordering a date against
  the month-end dates generated by pandas `date_range` with month-end
  frequency "M", and reading the calendar month of a date — factor
  through this abstraction.
* The Prophet model fitted on the history is abstracted as a prediction
  function `g : MDate → ℚ × ℚ × ℚ` returning (yhat, yhat_lower,
  yhat_upper) at each date; the input validation performed by
  `Prophet.fit` and the date generation performed by
  `Prophet.make_future_dataframe` are embedded from the library source
  because `run_forecast` relies on them for its output shape.
* The OpenAI client is abstracted as `Option (Except String String)`:
  `none` means no API key was configured (no client), `some (.error e)`
  means the chat-completion call raises an exception with message `e`,
  and `some (.ok s)` means it returns the summary text `s`.
* Column names are taken post-normalisation (strip + capitalize), so a
  `RawTable` directly records which canonical financial columns exist.
-/

namespace CashFlow

/-- A calendar date abstracted to the index of its calendar month and
whether it is the last day of that month (pandas `date_range` with
frequency "M" produces exactly the month-end dates). -/
structure MDate where
  month : ℕ
  isEnd : Bool
deriving DecidableEq

/-- Strict order on abstracted dates: earlier month first; within one
month, every non-final day precedes the month-end. -/
def mdateLt (a b : MDate) : Bool :=
  a.month < b.month || (a.month == b.month && !a.isEnd && b.isEnd)

/-- Maximum of two dates, used to embed `history_dates.max()`. -/
def maxMD (a b : MDate) : MDate := if mdateLt a b then b else a

/-- One row of the uploaded CSV after column-name capitalisation and
`pd.to_datetime` with coercion: `month = none` is a NaT cell; a financial
cell carries its value when the column exists in the table (`RawTable`
records which columns do; the cell value is ignored otherwise). -/
structure RawRow where
  month : Option MDate
  Revenue : ℚ
  Expenses : ℚ
  Receivables : ℚ
  Payables : ℚ
deriving DecidableEq

/-- The uploaded table: which of the four financial columns are present
after column-name normalisation, and its rows. -/
structure RawTable where
  hasRevenue : Bool
  hasExpenses : Bool
  hasReceivables : Bool
  hasPayables : Bool
  rows : List RawRow
deriving DecidableEq

/-- Row order used by `df.sort_values("Month")`: ascending by month with
NaT cells placed last. -/
def monthLe (a b : RawRow) : Bool :=
  match a.month, b.month with
  | none, none => true
  | none, some _ => false
  | some _, none => true
  | some x, some y => mdateLt x y || x == y

/-- Insertion step of the sort on rows. -/
def insertRow (r : RawRow) : List RawRow → List RawRow
  | [] => [r]
  | x :: xs => if monthLe r x then r :: x :: xs else x :: insertRow r xs

/-- Embeds `df.sort_values("Month").reset_index(drop = True)` as an
insertion sort by the month key (tie order among equal keys is not
observed by any downstream computation). -/
def sortRows (l : List RawRow) : List RawRow := l.foldr insertRow []

/-- The zero-filling loop of `run_forecast`: a financial column missing
from the table is created as an all-zero column, so after the loop a row
keeps its cell value when the column existed and reads 0 otherwise. -/
def fillRow (t : RawTable) (r : RawRow) : RawRow :=
  { r with
      Revenue := if t.hasRevenue then r.Revenue else 0,
      Expenses := if t.hasExpenses then r.Expenses else 0,
      Receivables := if t.hasReceivables then r.Receivables else 0,
      Payables := if t.hasPayables then r.Payables else 0 }

/-- The net-cash line of `run_forecast`, evaluated on a zero-filled row:
Net_cash = Revenue + Receivables - (Expenses + Payables). -/
def netCashRow (r : RawRow) : ℚ :=
  r.Revenue + r.Receivables - (r.Expenses + r.Payables)

/-- Modelled from the spec, as the refinement side of the net-cash
invariant: net_cash equals revenue + receivables - (expenses + payables),
with a missing financial column contributing zero. -/
def specNetCash (t : RawTable) (r : RawRow) : ℚ :=
  (if t.hasRevenue then r.Revenue else 0) + (if t.hasReceivables then r.Receivables else 0)
    - ((if t.hasExpenses then r.Expenses else 0) + (if t.hasPayables then r.Payables else 0))

/-- The dataframe handed to Prophet: rows sorted by month, with ds the
month and y the derived net cash. -/
def prophetSeries (t : RawTable) : List (Option MDate × ℚ) :=
  (sortRows t.rows).map (fun r => (r.month, netCashRow (fillRow t r)))

/-- The non-NaT history dates seen by Prophet, in sorted order. -/
def histDates (t : RawTable) : List MDate :=
  (prophetSeries t).filterMap (fun x => x.1)

/-- Embeds `history_dates.max()` (the default for an empty history is
never read: fitting fails first). -/
def lastHistDate (t : RawTable) : MDate := (histDates t).foldl maxMD ⟨0, false⟩

/-- Embeds `pd.date_range(start = last_date, periods = p + 1, freq = "M")`
followed by the two slicings in `Prophet.make_future_dataframe`: the
range holds the month-end dates of the months `last_date.month`,
`last_date.month + 1`, and so on; dates not strictly after `last_date`
are dropped, and the first `p` of the remainder are kept. -/
def futureDates (lastDate : MDate) (p : ℕ) : List MDate :=
  (((List.range (p + 1)).map (fun i => MDate.mk (lastDate.month + i) true)).filter
      (fun d => mdateLt lastDate d)).take p

/-- One row of the value returned by `run_forecast`, after the final
column renaming to Month, Predicted_Net_Cash, Lower_Bound, Upper_Bound. -/
structure ForecastPoint where
  Month : MDate
  Predicted_Net_Cash : ℚ
  Lower_Bound : ℚ
  Upper_Bound : ℚ
deriving DecidableEq

/-- A predicted row of `model.predict` at one date, under the abstracted
model `g`. -/
def mkPoint (g : MDate → ℚ × ℚ × ℚ) (d : MDate) : ForecastPoint :=
  ⟨d, (g d).1, (g d).2.1, (g d).2.2⟩

/-- The pandas `DataFrame.tail n`: the last `n` rows. -/
def tailN (n : ℕ) (l : List α) : List α := l.drop (l.length - n)

/-- Embedding of `run_forecast` (backend_flask.py lines 37-61).  The fit
step checks, in Prophet source order, that the history has at least two
rows with non-null y (y is the derived net cash, never null here) and
that no ds value is NaT; `make_future_dataframe` with `periods = months`
and month-end frequency then appends the generated month-end dates to the
history dates, `model.predict` yields one row per date of that frame, and
`.tail(months)` keeps the last `months` rows.  A negative `months` is
rejected inside the pandas `date_range` call. -/
def run_forecast (g : MDate → ℚ × ℚ × ℚ) (t : RawTable) (months_to_forecast : ℤ) :
    Except String (List ForecastPoint) :=
  if (prophetSeries t).length < 2 then
    Except.error "Dataframe has less than 2 non-NaN rows."
  else if (prophetSeries t).any (fun x => x.1.isNone) then
    Except.error "Found NaN in column ds."
  else if months_to_forecast < 0 then
    Except.error "Number of samples must be non-negative."
  else
    Except.ok (tailN months_to_forecast.toNat
      ((histDates t ++ futureDates (lastHistDate t) months_to_forecast.toNat).map (mkPoint g)))

/-- Risk tiers assigned by `classify_risk`. -/
inductive RiskTier where
  | critical
  | warning
  | safe
deriving DecidableEq

/-- Display strings of the risk tiers, as written into the Risk column. -/
def riskLabel : RiskTier → String
  | RiskTier.critical => "🔴 Critical"
  | RiskTier.warning => "🟠 Warning"
  | RiskTier.safe => "🟢 Safe"

/-- Reason attached to a classified point.  Each constructor records which
message template the code instantiates and the amount it cites (the
numeric rendering of the amount inside the f-string is abstracted):
`largeShortfall` and `cashTight` cite the lower bound, `noDeficit` cites
the predicted value. -/
inductive Reason where
  | largeShortfall (lowerBound : ℚ)
  | cashTight (lowerBound : ℚ)
  | noDeficit (predicted : ℚ)
deriving DecidableEq

/-- Per-row body of the loop in `classify_risk` (backend_flask.py lines
70-88). -/
def classifyPoint (avg_exp : ℚ) (row : ForecastPoint) : RiskTier × Reason :=
  let warning_threshold := (1 / 10 : ℚ) * avg_exp
  let critical_threshold := -(1 / 4 : ℚ) * avg_exp
  if row.Lower_Bound ≤ critical_threshold then
    (RiskTier.critical, Reason.largeShortfall row.Lower_Bound)
  else if row.Lower_Bound < warning_threshold then
    (RiskTier.warning, Reason.cashTight row.Lower_Bound)
  else
    (RiskTier.safe, Reason.noDeficit row.Predicted_Net_Cash)

/-- Embedding of `classify_risk`: attaches a tier and a reason to every
forecast row, preserving order. -/
def classify_risk (forecast_df : List ForecastPoint) (avg_exp : ℚ) :
    List (ForecastPoint × RiskTier × Reason) :=
  forecast_df.map (fun row => (row, classifyPoint avg_exp row))

/-- Embeds `df["Expenses"].mean()` as evaluated in `predict`: the mean is
read from the original table after `run_forecast` capitalised its column
names in place, but before any zero-filling — the filling loop runs on a
local copy inside `run_forecast` (the dataframe is rebound by
`sort_values` before the loop), so it never reaches this table. -/
def avgExpenses (t : RawTable) : ℚ :=
  ((t.rows.map (fun r => r.Expenses)).sum) / (t.rows.length : ℚ)

/-- The parts of the multipart /predict request the route reads: the
uploaded file (already parsed into a table) and the months form field
(absent, or a string parsing to an integer). -/
structure PredictRequest where
  file : Option RawTable
  months : Option ℤ
deriving DecidableEq

/-- The JSON responses the /predict route can produce: the success payload
(message, forecast records, ai_summary), a 400 error, or the 500 error
produced by the catch-all handler. -/
inductive PredictResponse where
  | ok (message : String) (forecast : List (ForecastPoint × RiskTier × Reason))
      (ai_summary : String)
  | clientError (error : String)
  | serverError (error : String)
deriving DecidableEq

/-- Initial value of ai_summary in `predict`; it is overwritten on every
path before the response is built. -/
def placeholderSummary : String := "⚠️ AI summary could not be generated."

/-- The AI-summary block of `predict` (lines 129-165): with no client, the
missing-key placeholder; with a client, the completion text on success
and an error-bearing fallback message on exception. -/
def aiSummaryFor (client : Option (Except String String)) : String :=
  match client with
  | none => "⚠️ Missing OpenAI API key."
  | some (Except.ok s) => s
  | some (Except.error e) => "⚠️ AI summary failed: " ++ e

/-- Embedding of the /predict route (backend_flask.py lines 106-176).
The months field defaults to 3 when absent and is used unchecked; a
missing file yields the 400 response; any exception raised by the
pipeline is converted by the catch-all handler into the 500 response
carrying the exception text (the Python KeyError raised by the Expenses
lookup when that column is absent is modelled by the fixed text
"KeyError: Expenses"). -/
def predict (g : MDate → ℚ × ℚ × ℚ) (client : Option (Except String String))
    (req : PredictRequest) : PredictResponse :=
  let months := req.months.getD 3
  match req.file with
  | none => PredictResponse.clientError "No file uploaded"
  | some t =>
    match run_forecast g t months with
    | Except.error e => PredictResponse.serverError e
    | Except.ok forecast_df =>
      if t.hasExpenses then
        PredictResponse.ok
          (toString months ++ "-month forecast generated successfully.")
          (classify_risk forecast_df (avgExpenses t))
          (aiSummaryFor client)
      else
        PredictResponse.serverError "KeyError: Expenses"

/-- Whether a response is the success payload. -/
def PredictResponse.isOk : PredictResponse → Bool
  | PredictResponse.ok _ _ _ => true
  | _ => false

/-- The forecast array of a response, when the response is a success. -/
def PredictResponse.forecastList :
    PredictResponse → Option (List (ForecastPoint × RiskTier × Reason))
  | PredictResponse.ok _ f _ => some f
  | _ => none

/-- The ai_summary field of a response, when the response is a success. -/
def PredictResponse.summaryText : PredictResponse → Option String
  | PredictResponse.ok _ _ s => some s
  | _ => none

/-- A constant prediction function, used for concrete evaluations. -/
def gZero : MDate → ℚ × ℚ × ℚ := fun _ => (0, 0, 0)

/-- Two-row history at month-start dates (months 0 and 1), all four
financial columns present. -/
def sampleTable : RawTable :=
  ⟨true, true, true, true,
    [⟨some ⟨0, false⟩, 10, 8, 0, 0⟩, ⟨some ⟨1, false⟩, 10, 8, 0, 0⟩]⟩

/-- Two-row history at month-end dates (months 0 and 1), all four
financial columns present. -/
def sampleTableEnd : RawTable :=
  ⟨true, true, true, true,
    [⟨some ⟨0, true⟩, 10, 8, 0, 0⟩, ⟨some ⟨1, true⟩, 10, 8, 0, 0⟩]⟩

/-- Two-row history in which the Expenses column is missing entirely. -/
def tableNoExpenses : RawTable :=
  ⟨true, false, true, true,
    [⟨some ⟨0, false⟩, 5, 0, 0, 0⟩, ⟨some ⟨1, false⟩, 7, 0, 0, 0⟩]⟩

/-- Two-row history in which only the Expenses column is present. -/
def tableOnlyExpenses : RawTable :=
  ⟨false, true, false, false,
    [⟨some ⟨0, false⟩, 0, 8, 0, 0⟩, ⟨some ⟨1, false⟩, 0, 8, 0, 0⟩]⟩

/-- A history with a single row. -/
def tableOneRow : RawTable :=
  ⟨true, true, true, true, [⟨some ⟨0, false⟩, 10, 8, 0, 0⟩]⟩

/-! ### Helper lemmas about the embedded operations -/

lemma mdateLt_iff (a b : MDate) :
    mdateLt a b = true ↔
      (a.month < b.month ∨ (a.month = b.month ∧ a.isEnd = false ∧ b.isEnd = true)) := by
  simp [mdateLt, Bool.or_eq_true, Bool.and_eq_true, decide_eq_true_eq, beq_iff_eq,
    Bool.not_eq_true', and_assoc]

lemma insertRow_length (r : RawRow) (l : List RawRow) :
    (insertRow r l).length = l.length + 1 := by
  induction l with
  | nil => rfl
  | cons x xs ih =>
    unfold insertRow
    by_cases h : monthLe r x = true
    · simp [h]
    · simp [h, ih]

lemma sortRows_length (l : List RawRow) : (sortRows l).length = l.length := by
  induction l with
  | nil => rfl
  | cons x xs ih =>
    show (insertRow x (sortRows xs)).length = xs.length + 1
    rw [insertRow_length, ih]

lemma insertRow_any (p : RawRow → Bool) (r : RawRow) (l : List RawRow) :
    (insertRow r l).any p = (p r || l.any p) := by
  induction l with
  | nil => simp [insertRow]
  | cons x xs ih =>
    unfold insertRow
    by_cases h : monthLe r x = true
    · simp [h]
    · simp [h, ih, List.any_cons]
      cases p r <;> cases p x <;> simp

lemma sortRows_any (p : RawRow → Bool) (l : List RawRow) :
    (sortRows l).any p = l.any p := by
  induction l with
  | nil => rfl
  | cons x xs ih =>
    show (insertRow x (sortRows xs)).any p = _
    rw [insertRow_any, ih, List.any_cons]

lemma prophetSeries_length (t : RawTable) :
    (prophetSeries t).length = t.rows.length := by
  unfold prophetSeries
  rw [List.length_map, sortRows_length]

lemma any_fst_isNone_map (t : RawTable) (l : List RawRow) :
    ((l.map (fun r => (r.month, netCashRow (fillRow t r)))).any fun x => x.1.isNone) =
      l.any fun r => r.month.isNone := by
  induction l with
  | nil => rfl
  | cons x xs ih => simp [List.any_cons, ih]

lemma prophetSeries_any_none (t : RawTable) :
    ((prophetSeries t).any fun x => x.1.isNone) = t.rows.any fun r => r.month.isNone := by
  unfold prophetSeries
  rw [any_fst_isNone_map, sortRows_any]

lemma futureDates_spec (d : MDate) (p : ℕ) :
    futureDates d p =
      (List.range p).map (fun i =>
        MDate.mk ((if d.isEnd then d.month + 1 else d.month) + i) true) := by
  unfold futureDates
  cases hE : d.isEnd with
  | false =>
    have hall : ∀ x ∈ (List.range (p + 1)).map (fun i => MDate.mk (d.month + i) true),
        mdateLt d x = true := by
      intro x hx
      obtain ⟨i, _, rfl⟩ := List.mem_map.mp hx
      rw [mdateLt_iff]
      dsimp only
      rcases Nat.eq_zero_or_pos i with h0 | h0
      · subst h0; right; exact ⟨by omega, hE, rfl⟩
      · left; omega
    rw [List.filter_eq_self.mpr hall, ← List.map_take, List.take_range]
    have hmin : p ⊓ (p + 1) = p := by omega
    rw [hmin]
    simp [hE]
  | true =>
    rw [List.range_succ_eq_map]
    simp only [List.map_cons, List.filter_cons]
    have h0 : (mdateLt d (MDate.mk (d.month + 0) true)) = false := by
      rw [Bool.eq_false_iff]
      intro hc
      rw [mdateLt_iff] at hc
      dsimp only at hc
      rcases hc with hc | ⟨_, hc2, _⟩
      · omega
      · rw [hE] at hc2; cases hc2
    rw [h0]
    simp only [Bool.false_eq_true, if_false, List.map_map]
    have hall : ∀ x ∈ (List.range p).map
        ((fun i => MDate.mk (d.month + i) true) ∘ Nat.succ), mdateLt d x = true := by
      intro x hx
      obtain ⟨i, _, rfl⟩ := List.mem_map.mp hx
      rw [mdateLt_iff]
      left
      simp only [Function.comp_apply]
      omega
    rw [List.filter_eq_self.mpr hall]
    rw [List.take_of_length_le (by rw [List.length_map, List.length_range])]
    apply List.map_congr_left
    intro i _
    simp only [Function.comp_apply, hE, if_pos, MDate.mk.injEq]
    exact ⟨by omega, trivial⟩

lemma run_forecast_ok (g : MDate → ℚ × ℚ × ℚ) (t : RawTable) (m : ℤ)
    (h0 : 0 ≤ m) (hlen : 2 ≤ t.rows.length)
    (hmon : ∀ r ∈ t.rows, r.month.isSome = true) :
    run_forecast g t m =
      Except.ok ((futureDates (lastHistDate t) m.toNat).map (mkPoint g)) := by
  have h1 : ¬ (prophetSeries t).length < 2 := by rw [prophetSeries_length]; omega
  have h2 : ((prophetSeries t).any fun x => x.1.isNone) = false := by
    rw [prophetSeries_any_none, List.any_eq_false]
    intro r hr
    have hs := hmon r hr
    rcases hx : r.month with _ | d
    · rw [hx] at hs; cases hs
    · simp [hx]
  have h3 : ¬ m < 0 := by omega
  unfold run_forecast
  rw [if_neg h1, if_neg (by rw [h2]; intro hc; cases hc), if_neg h3]
  congr 1
  unfold tailN
  rw [List.map_append, List.length_append]
  have hflen : ((futureDates (lastHistDate t) m.toNat).map (mkPoint g)).length = m.toNat := by
    rw [futureDates_spec, List.length_map, List.length_map, List.length_range]
  rw [hflen, Nat.add_sub_cancel, List.drop_left]

/-! ### Claim theorems -/

/-- C1: for every forecast point and every avg_expenses, the risk
classifier assigns the tier by first-match precedence over the thresholds
warning_threshold = 0.10 x avg_expenses and critical_threshold =
-0.25 x avg_expenses — Critical iff lower_bound is at most the critical
threshold, else Warning iff lower_bound is strictly below the warning
threshold, else Safe — the reason cites the lower bound for Critical and
Warning and the predicted value for Safe, and `classify_risk` applies
this pointwise, preserving order. -/
theorem C1_risk_classifier_thresholds (avg_exp : ℚ) (ps : List ForecastPoint)
    (p : ForecastPoint) :
    classify_risk ps avg_exp = ps.map (fun q => (q, classifyPoint avg_exp q)) ∧
    ((classifyPoint avg_exp p).1 = RiskTier.critical ↔
      p.Lower_Bound ≤ -(1 / 4 : ℚ) * avg_exp) ∧
    ((classifyPoint avg_exp p).1 = RiskTier.warning ↔
      (-(1 / 4 : ℚ) * avg_exp < p.Lower_Bound ∧ p.Lower_Bound < (1 / 10 : ℚ) * avg_exp)) ∧
    ((classifyPoint avg_exp p).1 = RiskTier.safe ↔
      (-(1 / 4 : ℚ) * avg_exp < p.Lower_Bound ∧ (1 / 10 : ℚ) * avg_exp ≤ p.Lower_Bound)) ∧
    ((classifyPoint avg_exp p).2 = Reason.largeShortfall p.Lower_Bound ↔
      (classifyPoint avg_exp p).1 = RiskTier.critical) ∧
    ((classifyPoint avg_exp p).2 = Reason.cashTight p.Lower_Bound ↔
      (classifyPoint avg_exp p).1 = RiskTier.warning) ∧
    ((classifyPoint avg_exp p).2 = Reason.noDeficit p.Predicted_Net_Cash ↔
      (classifyPoint avg_exp p).1 = RiskTier.safe) := by
  refine ⟨rfl, ?_⟩
  simp only [classifyPoint]
  split_ifs with h1 h2
  · exact ⟨iff_of_true rfl h1,
      iff_of_false (by simp) (fun hc => absurd hc.1 (not_lt.mpr h1)),
      iff_of_false (by simp) (fun hc => absurd hc.1 (not_lt.mpr h1)),
      iff_of_true rfl rfl,
      iff_of_false (by simp) (by simp),
      iff_of_false (by simp) (by simp)⟩
  · exact ⟨iff_of_false (by simp) h1,
      iff_of_true rfl ⟨not_le.mp h1, h2⟩,
      iff_of_false (by simp) (fun hc => absurd h2 (not_lt.mpr hc.2)),
      iff_of_false (by simp) (by simp),
      iff_of_true rfl rfl,
      iff_of_false (by simp) (by simp)⟩
  · exact ⟨iff_of_false (by simp) h1,
      iff_of_false (by simp) (fun hc => absurd hc.2 h2),
      iff_of_true rfl ⟨not_le.mp h1, not_lt.mp h2⟩,
      iff_of_false (by simp) (by simp),
      iff_of_false (by simp) (by simp),
      iff_of_true rfl rfl⟩

/-- C3 counterexample: the claim says the boundary lower_bound =
0.10 x avg_expenses always classifies as Safe, but at avg_expenses = -100
the boundary point (lower bound -10) satisfies the Critical condition
(-10 is at most -0.25 x -100 = 25) and is classified Critical, not
Safe. -/
theorem C3_warning_boundary_cx :
    (⟨⟨0, true⟩, 5, -10, 9⟩ : ForecastPoint).Lower_Bound = (1 / 10 : ℚ) * (-100) ∧
    (classifyPoint (-100) ⟨⟨0, true⟩, 5, -10, 9⟩).1 = RiskTier.critical ∧
    (classifyPoint (-100) ⟨⟨0, true⟩, 5, -10, 9⟩).1 ≠ RiskTier.safe := by
  refine ⟨by norm_num, ?_, ?_⟩ <;> (norm_num [classifyPoint] <;> decide)

/-- C3 (amended): a forecast point whose lower_bound equals exactly
0.10 x avg_expenses is never classified Warning (the Warning condition is
a strict less-than); it is classified Safe when avg_expenses is positive,
but Critical when avg_expenses is zero or negative, because the boundary
value then also satisfies the inclusive Critical condition. -/
theorem C3_warning_boundary_amended (avg : ℚ) (p : ForecastPoint)
    (h : p.Lower_Bound = (1 / 10 : ℚ) * avg) :
    (classifyPoint avg p).1 ≠ RiskTier.warning ∧
    (0 < avg → (classifyPoint avg p).1 = RiskTier.safe) ∧
    (avg ≤ 0 → (classifyPoint avg p).1 = RiskTier.critical) := by
  simp only [classifyPoint]
  split_ifs with h1 h2
  · exact ⟨by simp, fun hpos => by exfalso; rw [h] at h1; linarith, fun _ => rfl⟩
  · exfalso; rw [h] at h2; exact lt_irrefl _ h2
  · refine ⟨by simp, fun _ => rfl, fun hneg => ?_⟩
    exfalso; rw [h] at h1; exact h1 (by linarith)

/-- C3 witness: at avg_expenses = 10 the boundary point with lower bound
1 = 0.10 x 10 is classified Safe and not Warning. -/
theorem C3_warning_boundary_witness :
    (⟨⟨0, true⟩, 5, 1, 9⟩ : ForecastPoint).Lower_Bound = (1 / 10 : ℚ) * 10 ∧
    ((classifyPoint 10 ⟨⟨0, true⟩, 5, 1, 9⟩).1 ≠ RiskTier.warning ∧
      (0 < (10 : ℚ) → (classifyPoint 10 ⟨⟨0, true⟩, 5, 1, 9⟩).1 = RiskTier.safe) ∧
      ((10 : ℚ) ≤ 0 → (classifyPoint 10 ⟨⟨0, true⟩, 5, 1, 9⟩).1 = RiskTier.critical)) :=
  ⟨by norm_num, C3_warning_boundary_amended 10 ⟨⟨0, true⟩, 5, 1, 9⟩ (by norm_num)⟩

/-- C4 counterexample: the claim says that with avg_expenses at most zero
a point is Critical only when its lower_bound is at most 0 and Safe
otherwise, but at avg_expenses = -100 the point with lower bound 10 has a
positive lower bound and is still classified Critical (its lower bound is
at most -0.25 x -100 = 25). -/
theorem C4_degenerate_cx :
    ((-100 : ℚ) ≤ 0) ∧
    (classifyPoint (-100) ⟨⟨0, true⟩, 5, 10, 9⟩).1 = RiskTier.critical ∧
    ¬ ((⟨⟨0, true⟩, 5, 10, 9⟩ : ForecastPoint).Lower_Bound ≤ 0) := by
  refine ⟨by norm_num, by norm_num [classifyPoint], by norm_num⟩

/-- C4 (amended): whenever avg_expenses is zero or negative the Warning
tier is never assigned, and classification degenerates to a two-way
split: Critical iff lower_bound is at most -0.25 x avg_expenses (which
reduces to lower_bound at most 0 exactly when avg_expenses equals zero),
otherwise Safe. -/
theorem C4_degenerate_amended (avg : ℚ) (p : ForecastPoint) (h : avg ≤ 0) :
    (classifyPoint avg p).1 ≠ RiskTier.warning ∧
    ((classifyPoint avg p).1 = RiskTier.critical ↔
      p.Lower_Bound ≤ -(1 / 4 : ℚ) * avg) ∧
    (avg = 0 → ((classifyPoint avg p).1 = RiskTier.critical ↔ p.Lower_Bound ≤ 0)) ∧
    ((classifyPoint avg p).1 ≠ RiskTier.critical →
      (classifyPoint avg p).1 = RiskTier.safe) := by
  simp only [classifyPoint]
  split_ifs with h1 h2
  · refine ⟨by simp, iff_of_true rfl h1, fun h0 => iff_of_true rfl ?_, fun hc => absurd rfl hc⟩
    rw [h0] at h1
    simpa using h1
  · exfalso; exact absurd h2 (not_lt.mpr (by linarith [not_le.mp h1]))
  · refine ⟨by simp, iff_of_false (by simp) h1, fun h0 => iff_of_false (by simp) ?_,
      fun _ => rfl⟩
    rw [h0] at h1
    simpa using h1

/-- C4 witness: at avg_expenses = 0 the degenerate classification holds
for the point with lower bound 5. -/
theorem C4_degenerate_witness :
    ((0 : ℚ) ≤ 0) ∧
    ((classifyPoint 0 ⟨⟨0, true⟩, 5, 5, 9⟩).1 ≠ RiskTier.warning ∧
      ((classifyPoint 0 ⟨⟨0, true⟩, 5, 5, 9⟩).1 = RiskTier.critical ↔
        (⟨⟨0, true⟩, 5, 5, 9⟩ : ForecastPoint).Lower_Bound ≤ -(1 / 4 : ℚ) * 0) ∧
      ((0 : ℚ) = 0 → ((classifyPoint 0 ⟨⟨0, true⟩, 5, 5, 9⟩).1 = RiskTier.critical ↔
        (⟨⟨0, true⟩, 5, 5, 9⟩ : ForecastPoint).Lower_Bound ≤ 0)) ∧
      ((classifyPoint 0 ⟨⟨0, true⟩, 5, 5, 9⟩).1 ≠ RiskTier.critical →
        (classifyPoint 0 ⟨⟨0, true⟩, 5, 5, 9⟩).1 = RiskTier.safe)) :=
  ⟨le_refl 0, C4_degenerate_amended 0 ⟨⟨0, true⟩, 5, 5, 9⟩ (le_refl 0)⟩

/-- C2 counterexample: the claim requires every forecast month to
strictly follow the last historical month, but on a valid two-row history
whose dates are month starts (months 0 and 1, not month-ends) with
horizon 3, the returned months are 1, 2, 3 — the first forecast entry
falls in month 1, the very month of the last historical record, because
the month-end date generation starts inside that month. -/
theorem C2_forecast_sequence_cx :
    (run_forecast gZero sampleTable 3).map (fun fps => fps.map (fun p => p.Month.month)) =
      Except.ok [1, 2, 3] ∧
    (lastHistDate sampleTable).month = 1 ∧
    ¬ (1 > (lastHistDate sampleTable).month) := by
  refine ⟨rfl, rfl, by decide⟩

/-- C2 (amended): for every valid dataset (at least two rows, all months
parseable) and horizon between 1 and 12, the forecast has exactly
`horizon` entries at contiguous, strictly increasing month-end dates,
each strictly after the last historical date; every forecast month
strictly follows the last historical calendar month when the last
historical date is a month-end, but when it is not, the first forecast
entry falls in the same calendar month as the last historical date. -/
theorem C2_forecast_sequence_amended (g : MDate → ℚ × ℚ × ℚ) (t : RawTable) (m : ℤ)
    (h1 : 1 ≤ m) (h12 : m ≤ 12) (hlen : 2 ≤ t.rows.length)
    (hmon : ∀ r ∈ t.rows, r.month.isSome = true) :
    ∃ fps, run_forecast g t m = Except.ok fps ∧
      fps.length = m.toNat ∧
      fps.map (fun p => p.Month) =
        (List.range m.toNat).map (fun i =>
          MDate.mk ((if (lastHistDate t).isEnd then (lastHistDate t).month + 1
            else (lastHistDate t).month) + i) true) ∧
      (∀ p ∈ fps, mdateLt (lastHistDate t) p.Month = true) ∧
      ((lastHistDate t).isEnd = true →
        ∀ p ∈ fps, (lastHistDate t).month < p.Month.month) ∧
      ((lastHistDate t).isEnd = false →
        ∃ p ∈ fps, p.Month.month = (lastHistDate t).month) := by
  refine ⟨_, run_forecast_ok g t m (by omega) hlen hmon, ?_, ?_, ?_, ?_, ?_⟩
  · rw [futureDates_spec, List.length_map, List.length_map, List.length_range]
  · rw [futureDates_spec, List.map_map, List.map_map]
    rfl
  · intro p hp
    rw [futureDates_spec] at hp
    obtain ⟨d, hd, rfl⟩ := List.mem_map.mp hp
    obtain ⟨i, hi, rfl⟩ := List.mem_map.mp hd
    rw [mdateLt_iff]
    dsimp only [mkPoint]
    cases hE : (lastHistDate t).isEnd
    · simp only [hE, Bool.false_eq_true, if_false]
      rcases Nat.eq_zero_or_pos i with h0 | h0
      · subst h0
        right
        simp
      · left
        omega
    · simp only [hE, if_true]
      left; omega
  · intro hE p hp
    rw [futureDates_spec] at hp
    obtain ⟨d, hd, rfl⟩ := List.mem_map.mp hp
    obtain ⟨i, hi, rfl⟩ := List.mem_map.mp hd
    dsimp only [mkPoint]
    simp only [hE, if_true]
    omega
  · intro hE
    refine ⟨mkPoint g (MDate.mk ((if (lastHistDate t).isEnd then (lastHistDate t).month + 1
      else (lastHistDate t).month) + 0) true), ?_, ?_⟩
    · rw [futureDates_spec]
      exact List.mem_map.mpr ⟨_, List.mem_map.mpr ⟨0, List.mem_range.mpr (by omega), rfl⟩, rfl⟩
    · dsimp only [mkPoint]
      simp [hE]

/-- C2 witness: on the month-end two-row history with horizon 3 the
amended sequence properties hold, and there every forecast month strictly
follows the last historical month. -/
theorem C2_forecast_sequence_witness :
    (1 : ℤ) ≤ 3 ∧ (3 : ℤ) ≤ 12 ∧ 2 ≤ sampleTableEnd.rows.length ∧
    (∀ r ∈ sampleTableEnd.rows, r.month.isSome = true) ∧
    (∃ fps, run_forecast gZero sampleTableEnd 3 = Except.ok fps ∧
      fps.length = (3 : ℤ).toNat ∧
      fps.map (fun p => p.Month) =
        (List.range (3 : ℤ).toNat).map (fun i =>
          MDate.mk ((if (lastHistDate sampleTableEnd).isEnd then
            (lastHistDate sampleTableEnd).month + 1
            else (lastHistDate sampleTableEnd).month) + i) true) ∧
      (∀ p ∈ fps, mdateLt (lastHistDate sampleTableEnd) p.Month = true) ∧
      ((lastHistDate sampleTableEnd).isEnd = true →
        ∀ p ∈ fps, (lastHistDate sampleTableEnd).month < p.Month.month) ∧
      ((lastHistDate sampleTableEnd).isEnd = false →
        ∃ p ∈ fps, p.Month.month = (lastHistDate sampleTableEnd).month)) :=
  ⟨by norm_num, by norm_num, by decide, by decide,
    C2_forecast_sequence_amended gZero sampleTableEnd 3 (by norm_num) (by norm_num)
      (by decide) (by decide)⟩

/-- C9: for every row of the normalised dataset the derived net cash
equals revenue + receivables - (expenses + payables) with a missing
financial column contributing zero, and the y series handed to the
forecaster carries exactly this quantity for every (sorted) row. -/
theorem C9_net_cash_invariant (t : RawTable) (r : RawRow) :
    netCashRow (fillRow t r) = specNetCash t r ∧
    prophetSeries t = (sortRows t.rows).map (fun q => (q.month, specNetCash t q)) :=
  ⟨rfl, rfl⟩

/-- C6: a dataset with zero rows makes the pipeline fail — the fit step
raises its minimum-sample error, surfaced by the catch-all handler as the
error response — and the response carries no forecast.  The spec labels
this condition ValidationError; the code realises it as the generic error
payload. -/
theorem C6_zero_rows_fails (g : MDate → ℚ × ℚ × ℚ)
    (client : Option (Except String String)) (hR hE hRc hP : Bool) (mf : Option ℤ) :
    predict g client ⟨some ⟨hR, hE, hRc, hP, []⟩, mf⟩ =
      PredictResponse.serverError "Dataframe has less than 2 non-NaN rows." ∧
    (predict g client ⟨some ⟨hR, hE, hRc, hP, []⟩, mf⟩).forecastList = none :=
  ⟨rfl, rfl⟩

/-- C7: whenever the history holds fewer than 2 usable (non-null-month)
records, the forecast step raises for any horizon and /predict surfaces a
failure with no forecast.  The spec labels this ForecastError; the code
realises it as the generic error payload (the minimum-sample message when
the table has fewer than 2 rows, the NaN-in-ds message when unparseable
months pad the row count to 2 or more). -/
theorem C7_insufficient_history (g : MDate → ℚ × ℚ × ℚ)
    (client : Option (Except String String)) (t : RawTable) (mf : Option ℤ)
    (husable : t.rows.countP (fun r => r.month.isSome) < 2) :
    ∃ e, predict g client ⟨some t, mf⟩ = PredictResponse.serverError e ∧
      (predict g client ⟨some t, mf⟩).forecastList = none := by
  by_cases hlen : t.rows.length < 2
  · have hc1 : (prophetSeries t).length < 2 := by rw [prophetSeries_length]; exact hlen
    have herr : run_forecast g t (mf.getD 3) =
        Except.error "Dataframe has less than 2 non-NaN rows." := by
      unfold run_forecast
      rw [if_pos hc1]
    refine ⟨"Dataframe has less than 2 non-NaN rows.", ?_, ?_⟩ <;>
      simp [predict, herr, PredictResponse.forecastList]
  · have hnone : (t.rows.any fun r => r.month.isNone) = true := by
      by_contra hc
      rw [Bool.not_eq_true, List.any_eq_false] at hc
      have hall : t.rows.countP (fun r => r.month.isSome) = t.rows.length := by
        rw [List.countP_eq_length]
        intro r hr
        have hni := hc r hr
        rcases hx : r.month with _ | d
        · rw [hx] at hni; simp at hni
        · simp [hx]
      omega
    have hc2 : ((prophetSeries t).any fun x => x.1.isNone) = true := by
      rw [prophetSeries_any_none]; exact hnone
    have herr : run_forecast g t (mf.getD 3) = Except.error "Found NaN in column ds." := by
      unfold run_forecast
      rw [if_neg (by rw [prophetSeries_length]; omega), if_pos hc2]
    refine ⟨"Found NaN in column ds.", ?_, ?_⟩ <;>
      simp [predict, herr, PredictResponse.forecastList]

/-- C7 witness: a one-row history fails for horizon 3 with no forecast. -/
theorem C7_insufficient_history_witness :
    tableOneRow.rows.countP (fun r => r.month.isSome) < 2 ∧
    (∃ e, predict gZero none ⟨some tableOneRow, some 3⟩ = PredictResponse.serverError e ∧
      (predict gZero none ⟨some tableOneRow, some 3⟩).forecastList = none) :=
  ⟨by decide, C7_insufficient_history gZero none tableOneRow (some 3) (by decide)⟩

/-- C5 (code bug): the normaliser does treat missing financial columns as
all-zero — `run_forecast` succeeds on a table with no Expenses column,
deriving net cash 5 from revenue 5 alone, and /predict succeeds when only
Expenses is present — but the later average-expenses lookup reads the
original, un-filled table, so a request whose dataset lacks the Expenses
column fails with the KeyError surfaced as the error response and no
forecast, contradicting the claim that the pipeline proceeds. -/
theorem C5_missing_expenses_bug :
    (run_forecast gZero tableNoExpenses 3).isOk = true ∧
    netCashRow (fillRow tableNoExpenses ⟨some ⟨0, false⟩, 5, 0, 0, 0⟩) = 5 ∧
    predict gZero none ⟨some tableNoExpenses, some 3⟩ =
      PredictResponse.serverError "KeyError: Expenses" ∧
    (predict gZero none ⟨some tableNoExpenses, some 3⟩).forecastList = none ∧
    (predict gZero none ⟨some tableOnlyExpenses, some 3⟩).isOk = true := by
  have hrf := run_forecast_ok gZero tableNoExpenses 3 (by norm_num) (by decide) (by decide)
  have hrf2 := run_forecast_ok gZero tableOnlyExpenses 3 (by norm_num) (by decide) (by decide)
  refine ⟨by rw [hrf]; rfl, by norm_num [netCashRow, fillRow, tableNoExpenses], ?_, ?_, ?_⟩
  · simp [predict, hrf, show tableNoExpenses.hasExpenses = false from rfl]
  · simp [predict, hrf, show tableNoExpenses.hasExpenses = false from rfl,
      PredictResponse.forecastList]
  · simp [predict, hrf2, show tableOnlyExpenses.hasExpenses = true from rfl,
      PredictResponse.isOk]

/-- C8 counterexample: the fallback written into ai_summary when the
summary collaborator fails is not a fixed placeholder — it embeds the
failure message, so two different failures produce two different
ai_summary strings, and neither equals the fixed initial placeholder text
the code declares (and always overwrites). -/
theorem C8_summary_fallback_cx :
    (predict gZero (some (Except.error "timeout")) ⟨some sampleTable, some 3⟩).isOk = true ∧
    (predict gZero (some (Except.error "timeout")) ⟨some sampleTable, some 3⟩).summaryText ≠
      (predict gZero (some (Except.error "refused")) ⟨some sampleTable, some 3⟩).summaryText ∧
    (predict gZero (some (Except.error "timeout")) ⟨some sampleTable, some 3⟩).summaryText ≠
      some placeholderSummary := by
  have hrf := run_forecast_ok gZero sampleTable 3 (by norm_num) (by decide) (by decide)
  have hview : ∀ cl, (predict gZero cl ⟨some sampleTable, some 3⟩).summaryText =
      some (aiSummaryFor cl) := by
    intro cl
    simp [predict, hrf, show sampleTable.hasExpenses = true from rfl,
      PredictResponse.summaryText]
  refine ⟨?_, ?_, ?_⟩
  · simp [predict, hrf, show sampleTable.hasExpenses = true from rfl, PredictResponse.isOk]
  · rw [hview, hview]
    simp only [aiSummaryFor, Option.some.injEq, ne_eq]
    decide
  · rw [hview]
    simp only [aiSummaryFor, placeholderSummary, Option.some.injEq, ne_eq]
    decide

/-- C8 (amended): whenever the summary collaborator is unavailable or
fails, the response still contains the full forecast array and a non-null
ai_summary string and the overall request succeeds; the ai_summary is the
fixed missing-key placeholder when the collaborator is unavailable, and
an error-dependent fallback string naming the failure when it fails. -/
theorem C8_summary_fallback_amended (g : MDate → ℚ × ℚ × ℚ) (t : RawTable)
    (mf : Option ℤ) (client : Option (Except String String))
    (hexp : t.hasExpenses = true)
    (hok : (run_forecast g t (mf.getD 3)).isOk = true)
    (hfail : client = none ∨ ∃ e, client = some (Except.error e)) :
    (predict g client ⟨some t, mf⟩).isOk = true ∧
    (predict g client ⟨some t, mf⟩).forecastList =
      some (classify_risk ((run_forecast g t (mf.getD 3)).toOption.getD []) (avgExpenses t)) ∧
    (predict g client ⟨some t, mf⟩).summaryText ≠ none ∧
    (client = none → (predict g client ⟨some t, mf⟩).summaryText =
      some "⚠️ Missing OpenAI API key.") ∧
    (∀ e, client = some (Except.error e) → (predict g client ⟨some t, mf⟩).summaryText =
      some ("⚠️ AI summary failed: " ++ e)) := by
  obtain ⟨fps, hfps⟩ : ∃ fps, run_forecast g t (mf.getD 3) = Except.ok fps := by
    rcases hrf : run_forecast g t (mf.getD 3) with e | fps
    · rw [hrf] at hok; simp [Except.isOk, Except.toBool] at hok
    · exact ⟨fps, rfl⟩
  refine ⟨?_, ?_, ?_, ?_, ?_⟩
  · simp [predict, hfps, hexp, PredictResponse.isOk]
  · simp [predict, hfps, hexp, PredictResponse.forecastList, Except.toOption]
  · simp [predict, hfps, hexp, PredictResponse.summaryText]
  · rintro rfl
    simp [predict, hfps, hexp, PredictResponse.summaryText, aiSummaryFor]
  · rintro e rfl
    simp [predict, hfps, hexp, PredictResponse.summaryText, aiSummaryFor]

/-- C8 witness: with no summary client configured, the request on the
sample history succeeds with a full three-month forecast and the fixed
missing-key ai_summary. -/
theorem C8_summary_fallback_witness :
    sampleTable.hasExpenses = true ∧
    (run_forecast gZero sampleTable ((some (3 : ℤ)).getD 3)).isOk = true ∧
    ((none : Option (Except String String)) = none ∨
      ∃ e, (none : Option (Except String String)) = some (Except.error e)) ∧
    ((predict gZero none ⟨some sampleTable, some 3⟩).isOk = true ∧
      (predict gZero none ⟨some sampleTable, some 3⟩).forecastList =
        some (classify_risk ((run_forecast gZero sampleTable
          ((some (3 : ℤ)).getD 3)).toOption.getD []) (avgExpenses sampleTable)) ∧
      (predict gZero none ⟨some sampleTable, some 3⟩).summaryText ≠ none ∧
      ((none : Option (Except String String)) = none →
        (predict gZero none ⟨some sampleTable, some 3⟩).summaryText =
          some "⚠️ Missing OpenAI API key.") ∧
      (∀ e, (none : Option (Except String String)) = some (Except.error e) →
        (predict gZero none ⟨some sampleTable, some 3⟩).summaryText =
          some ("⚠️ AI summary failed: " ++ e))) := by
  have hok : (run_forecast gZero sampleTable ((some (3 : ℤ)).getD 3)).isOk = true := by
    rw [show ((some (3 : ℤ)).getD 3) = 3 from rfl,
      run_forecast_ok gZero sampleTable 3 (by norm_num) (by decide) (by decide)]
    rfl
  exact ⟨rfl, hok, Or.inl rfl,
    C8_summary_fallback_amended gZero sampleTable (some 3) none rfl hok (Or.inl rfl)⟩

/-- C10: a request with a file but no months field runs with the default
horizon 3, and the months value is never checked against the range 1..12:
the parseable integers 0 and 24 are passed through to the forecast step
without rejection, yielding a successful response with 0 and 24 forecast
entries respectively. -/
theorem C10_months_passthrough (g : MDate → ℚ × ℚ × ℚ)
    (client : Option (Except String String)) (t : RawTable)
    (hexp : t.hasExpenses = true) (hlen : 2 ≤ t.rows.length)
    (hmon : ∀ r ∈ t.rows, r.month.isSome = true) :
    ((⟨some t, none⟩ : PredictRequest).months.getD 3 = 3) ∧
    ((predict g client ⟨some t, none⟩).forecastList.map List.length = some 3) ∧
    (predict g client ⟨some t, some 0⟩).isOk = true ∧
    ((predict g client ⟨some t, some 0⟩).forecastList.map List.length = some 0) ∧
    (predict g client ⟨some t, some 24⟩).isOk = true ∧
    ((predict g client ⟨some t, some 24⟩).forecastList.map List.length = some 24) := by
  have h3 := run_forecast_ok g t 3 (by norm_num) hlen hmon
  have h0 := run_forecast_ok g t 0 (by norm_num) hlen hmon
  have h24 := run_forecast_ok g t 24 (by norm_num) hlen hmon
  refine ⟨rfl, ?_, ?_, ?_, ?_, ?_⟩ <;>
    simp [predict, h3, h0, h24, hexp, PredictResponse.isOk, PredictResponse.forecastList,
      classify_risk, futureDates_spec]

/-- C10 witness: the passthrough behaviour on the concrete sample
history. -/
theorem C10_months_passthrough_witness :
    sampleTable.hasExpenses = true ∧ 2 ≤ sampleTable.rows.length ∧
    (∀ r ∈ sampleTable.rows, r.month.isSome = true) ∧
    (((⟨some sampleTable, none⟩ : PredictRequest).months.getD 3 = 3) ∧
      ((predict gZero none ⟨some sampleTable, none⟩).forecastList.map List.length = some 3) ∧
      (predict gZero none ⟨some sampleTable, some 0⟩).isOk = true ∧
      ((predict gZero none ⟨some sampleTable, some 0⟩).forecastList.map List.length = some 0) ∧
      (predict gZero none ⟨some sampleTable, some 24⟩).isOk = true ∧
      ((predict gZero none ⟨some sampleTable, some 24⟩).forecastList.map List.length =
        some 24)) :=
  ⟨rfl, by decide, by decide,
    C10_months_passthrough gZero none sampleTable rfl (by decide) (by decide)⟩

end CashFlow
